import Mathlib

/-!
Verification of the discord-rpc IPC client of minecraft-launcher-core.

The Go sources embedded here are `pkg/discord-rpc/client/types.go` (payload
structures and their `encoding/json` struct tags, and the client operations
`Login`, `Logout`, `SetActivity`, `getNonce`) and
`pkg/discord-rpc/client/response.go` (the `Response` and handshake-reply
structures).  The `ipc` package (`OpenSocket`, `Send`, `CloseSocket` and the
wire-frame codec) is not among the sources; its behaviour is modelled from the
specification where needed, and each such definition says so in its doc
comment.

JSON documents are modelled by the inductive `Json`; Go's `json.Marshal` of
the payload structures is embedded at the document level (which keys appear,
with which values), following the struct tags field by field.  External
effects (socket open, send/receive, close, `os.Getpid`, `crypto/rand`) are
supplied as explicit oracle records, and the client operations are pure state
transformers over `ClientState`.
-/

/-- A JSON document.  Object fields are kept in emission order, matching the
field order of the Go structs that `encoding/json` marshals. -/
inductive Json where
  | null : Json
  | bool : Bool → Json
  | num : Int → Json
  | str : String → Json
  | arr : List Json → Json
  | obj : List (String × Json) → Json

/-- Structure `PayloadAssets` from types.go: four string fields, each tagged
`omitempty`. -/
structure PayloadAssets where
  largeImage : String
  largeText : String
  smallImage : String
  smallText : String

/-- Structure `PayloadParty` from types.go: `ID string` (omitempty) and
`Size [2]int` (omitempty, but a Go array is never empty). -/
structure PayloadParty where
  id : String
  size : Int × Int

/-- Structure `PayloadTimestamps` from types.go: `Start`, `End` are `*uint64` with
omitempty; a nil pointer is `none`. -/
structure PayloadTimestamps where
  start : Option Nat
  «end» : Option Nat

/-- Structure `PayloadSecrets` from types.go: three string fields with omitempty. -/
structure PayloadSecrets where
  match_ : String
  join : String
  spectate : String

/-- Structure `PayloadButton` from types.go: label and url strings with omitempty. -/
structure PayloadButton where
  label : String
  url : String

/-- Structure `PayloadActivity` from types.go.  `Assets` is a plain (non-pointer)
struct field; `Party`, `Timestamps`, `Secrets` are pointers (here
`Option`); `Buttons` is a slice (nil button pointers are not used by the
repository and are not modelled). -/
structure PayloadActivity where
  type_ : Int
  details : String
  state : String
  assets : PayloadAssets
  party : Option PayloadParty
  timestamps : Option PayloadTimestamps
  secrets : Option PayloadSecrets
  buttons : List PayloadButton

/-- A string field tagged `omitempty`: emitted unless it is the empty
string (Go's emptiness rule for strings). -/
def strField (key : String) (v : String) : List (String × Json) :=
  if v = "" then [] else [(key, Json.str v)]

/-- An int field tagged `omitempty`: emitted unless it is zero. -/
def intField (key : String) (v : Int) : List (String × Json) :=
  if v = 0 then [] else [(key, Json.num v)]

/-- A `*uint64` field tagged `omitempty`: emitted unless the pointer is
nil. -/
def natPtrField (key : String) (v : Option Nat) : List (String × Json) :=
  match v with
  | none => []
  | some n => [(key, Json.num (Int.ofNat n))]

/-- Embedding of Go `json.Marshal` on `PayloadAssets`, field by field per the struct tags. -/
def marshalAssets (a : PayloadAssets) : Json :=
  Json.obj (strField "large_image" a.largeImage ++ strField "large_text" a.largeText
    ++ strField "small_image" a.smallImage ++ strField "small_text" a.smallText)

/-- Embedding of Go `json.Marshal` on `PayloadParty`.  The `size,omitempty` tag has no
effect: a Go array value is never empty, so `size` is always emitted. -/
def marshalParty (p : PayloadParty) : Json :=
  Json.obj (strField "id" p.id ++ [("size", Json.arr [Json.num p.size.1, Json.num p.size.2])])

/-- Embedding of Go `json.Marshal` on `PayloadTimestamps`. -/
def marshalTimestamps (t : PayloadTimestamps) : Json :=
  Json.obj (natPtrField "start" t.start ++ natPtrField "end" t.«end»)

/-- Embedding of Go `json.Marshal` on `PayloadSecrets`. -/
def marshalSecrets (s : PayloadSecrets) : Json :=
  Json.obj (strField "match" s.match_ ++ strField "join" s.join
    ++ strField "spectate" s.spectate)

/-- Embedding of Go `json.Marshal` on `PayloadButton`. -/
def marshalButton (b : PayloadButton) : Json :=
  Json.obj (strField "label" b.label ++ strField "url" b.url)

/-- Embedding of Go `json.Marshal` on `PayloadActivity`, following the struct tags of
types.go field by field.  Note the `assets,omitempty` tag: `Assets` is a
non-pointer struct field, and Go's `encoding/json` never considers a struct
value empty, so the `assets` key is emitted unconditionally (as `{}` when
all its fields are empty).  The pointer fields (`party`, `timestamps`,
`secrets`) are omitted when nil, the `buttons` slice when its length is
zero, and `type` (an int) when zero. -/
def marshalActivity (a : PayloadActivity) : Json :=
  Json.obj (intField "type" a.type_ ++ strField "details" a.details
    ++ strField "state" a.state
    ++ [("assets", marshalAssets a.assets)]
    ++ (match a.party with | none => [] | some p => [("party", marshalParty p)])
    ++ (match a.timestamps with | none => [] | some t => [("timestamps", marshalTimestamps t)])
    ++ (match a.secrets with | none => [] | some s => [("secrets", marshalSecrets s)])
    ++ (if a.buttons.isEmpty then []
        else [("buttons", Json.arr (a.buttons.map marshalButton))]))

/-- The keys of a JSON object (empty for non-objects). -/
def Json.keys : Json → List String
  | Json.obj fields => fields.map Prod.fst
  | _ => []

/-- Embedding of Go `json.Marshal` on `Handshake{V: "1", ClientId: clientid}` as built by
`Login` in types.go; neither field is tagged omitempty. -/
def handshakeJson (clientid : String) : Json :=
  Json.obj [("v", Json.str "1"), ("client_id", Json.str clientid)]

/-- Embedding of Go `json.Marshal` on the `Frame`/`Args` pair built by `SetActivity`:
`{cmd: "SET_ACTIVITY", args: {pid: …, activity: …}, nonce: …}` — no field
of `Frame` or `Args` is tagged omitempty, and `Args.Activity` points at the
caller's activity, so it is never nil here. -/
def activityFrameJson (pid : Nat) (a : PayloadActivity) (nonce : String) : Json :=
  Json.obj [("cmd", Json.str "SET_ACTIVITY"),
    ("args", Json.obj [("pid", Json.num (Int.ofNat pid)), ("activity", marshalActivity a)]),
    ("nonce", Json.str nonce)]

/-- Structure `Response` from response.go: `Cmd string`, `Data any`, `Event string`
(tag `evt,omitempty`), `Nonce string` (omitempty).  After `json.Unmarshal`
a missing `evt` key leaves `Event` at Go's zero value `""`, and a missing
`data` key leaves `Data` as nil (here `Json.null`). -/
structure Response where
  cmd : String
  data : Json
  event : String
  nonce : String

/-- Whether `json.Unmarshal` of this JSON value into a Go `string` field
succeeds: strings and `null` do, anything else is a type error. -/
def goStringOk : Json → Bool
  | Json.str _ => true
  | Json.null => true
  | _ => false

/-- Whether `json.Unmarshal` of this value into a Go `int` field succeeds
(numbers are modelled as integers, so every number fits). -/
def goIntOk : Json → Bool
  | Json.num _ => true
  | Json.null => true
  | _ => false

/-- Whether `json.Unmarshal` of this value into a Go `bool` field
succeeds. -/
def goBoolOk : Json → Bool
  | Json.bool _ => true
  | Json.null => true
  | _ => false

/-- Whether `json.Unmarshal` of this value into `Config` (response.go:
three string fields `cdn_host`, `api_endpoint`, `environment`) succeeds:
the value must be an object or null, known keys must hold strings, unknown
keys are ignored. -/
def canUnmarshalConfig : Json → Bool
  | Json.null => true
  | Json.obj fields => fields.all fun kv =>
      if kv.1 = "cdn_host" ∨ kv.1 = "api_endpoint" ∨ kv.1 = "environment"
      then goStringOk kv.2 else true
  | _ => false

/-- Whether `json.Unmarshal` of this value into `User` (response.go)
succeeds: strings for `id`/`username`/`discriminator`/`avatar`, bool for
`bot`, ints for `flags`/`premium_type`; unknown keys ignored. -/
def canUnmarshalUser : Json → Bool
  | Json.null => true
  | Json.obj fields => fields.all fun kv =>
      if kv.1 = "id" ∨ kv.1 = "username" ∨ kv.1 = "discriminator" ∨ kv.1 = "avatar"
      then goStringOk kv.2
      else if kv.1 = "bot" then goBoolOk kv.2
      else if kv.1 = "flags" ∨ kv.1 = "premium_type" then goIntOk kv.2
      else true
  | _ => false

/-- Whether the re-marshalled `response.Data` unmarshals into
`HandshakeResponse` (response.go: `v` int, `config` Config, `user` User).
`Login` only inspects the error of this step, so the decoded value itself
is not needed. -/
def canUnmarshalHandshakeResp : Json → Bool
  | Json.null => true
  | Json.obj fields => fields.all fun kv =>
      if kv.1 = "v" then goIntOk kv.2
      else if kv.1 = "config" then canUnmarshalConfig kv.2
      else if kv.1 = "user" then canUnmarshalUser kv.2
      else true
  | _ => false

/-- One lowercase hexadecimal digit, as printed by Go's `%x` verb. -/
def hexDigit (n : Nat) : Char :=
  if n < 10 then Char.ofNat (48 + n) else Char.ofNat (87 + n)

/-- Go's `%x` of a single byte: exactly two lowercase hex digits
(zero-padded). -/
def byteToHex (b : Nat) : String :=
  String.mk [hexDigit (b / 16 % 16), hexDigit (b % 16)]

/-- Go's `%x` of a byte slice: the hex pairs of the bytes concatenated. -/
def bytesToHex : List Nat → String
  | [] => ""
  | b :: bs => byteToHex b ++ bytesToHex bs

/-- Embedding of `getNonce` from types.go: 16 random bytes `buf` (supplied here as the
oracle argument; a read error is only printed, never returned), then
`buf[6] = (buf[6] & 0x0f) | 0x40`, then
`fmt.Sprintf("%x-%x-%x-%x-%x", buf[0:4], buf[4:6], buf[6:8], buf[8:10],
buf[10:])`. -/
def getNonce (buf : Fin 16 → Fin 256) : String :=
  let b6 : Nat := ((buf 6).val &&& 0x0f) ||| 0x40
  bytesToHex [(buf 0).val, (buf 1).val, (buf 2).val, (buf 3).val]
    ++ "-" ++ bytesToHex [(buf 4).val, (buf 5).val]
    ++ "-" ++ bytesToHex [b6, (buf 7).val]
    ++ "-" ++ bytesToHex [(buf 8).val, (buf 9).val]
    ++ "-" ++ bytesToHex [(buf 10).val, (buf 11).val, (buf 12).val,
        (buf 13).val, (buf 14).val, (buf 15).val]

/-- The client's observable state: the package-global `logged` flag of
types.go, plus the Connection's status and wire history.  `sent` records
every frame written as an (opcode, marshalled JSON document) pair in
order; `recvCount` counts reply frames read.  `socketOpen` is the
Connection status (Modelled from the spec where the `ipc` package is
missing: `OpenSocket` opens it, `CloseSocket` closes it). -/
structure ClientState where
  logged : Bool
  socketOpen : Bool
  sent : List (Nat × Json)
  recvCount : Nat

/-- The initial state: not logged, no connection, nothing on the wire. -/
def initialState : ClientState :=
  { logged := false, socketOpen := false, sent := [], recvCount := 0 }

/-- The outcome, from the environment, of one `ipc.Send` round trip
followed by `json.Unmarshal` of the reply bytes into `Response`:
either the send/receive itself failed, or bytes arrived that do not parse,
or a decoded `Response`. -/
inductive Reply where
  | sendErr (msg : String)
  | unparseable
  | parsed (r : Response)

/-- The typed errors returned by `Login`/`SetActivity`, one constructor
per `return err` / `fmt.Errorf` site of types.go. -/
inductive RpcError where
  | openFailed (msg : String)
  | sendFailed (msg : String)
  | parseFailed
  | discordError (data : Json)
  | handshakeRespParseFailed

/-- Modelled from the spec (the `ipc` package is not among the sources):
`ipc.Send(opcode, payload)` writes exactly one frame carrying the opcode
and the marshalled payload, then blocks for exactly one reply frame; on a
send/receive error no reply is read.  The outcome of the round trip comes
from the environment oracle. -/
def ipcSend (opcode : Nat) (payload : Json) (reply : Reply) (st : ClientState) : ClientState :=
  let st1 := { st with sent := st.sent ++ [(opcode, payload)] }
  match reply with
  | Reply.sendErr _ => st1
  | _ => { st1 with recvCount := st1.recvCount + 1 }

/-- The environment of one `Login` call: the result of `ipc.OpenSocket`
(Modelled from the spec: on success the Connection is open) and the
outcome of the handshake round trip. -/
structure LoginEnv where
  openResult : Except String Unit
  reply : Reply

/-- Embedding of `Login` from types.go.  If `logged` is already set the body is
skipped and nil is returned.  Otherwise: marshal the handshake (total for
these field types), open the socket, send frame opcode 0, parse the
reply; an `"ERROR"` event tag or an unparseable handshake-metadata
payload is an error; only the success exit sets `logged`. -/
def Login (clientid : String) (env : LoginEnv) (st : ClientState) :
    Except RpcError Unit × ClientState :=
  if st.logged then (Except.ok (), st)
  else
    match env.openResult with
    | Except.error e => (Except.error (RpcError.openFailed e), st)
    | Except.ok _ =>
      let st1 := { st with socketOpen := true }
      let st2 := ipcSend 0 (handshakeJson clientid) env.reply st1
      match env.reply with
      | Reply.sendErr m => (Except.error (RpcError.sendFailed m), st2)
      | Reply.unparseable => (Except.error RpcError.parseFailed, st2)
      | Reply.parsed r =>
        if r.event = "ERROR" then (Except.error (RpcError.discordError r.data), st2)
        else if canUnmarshalHandshakeResp r.data
        then (Except.ok (), { st2 with logged := true })
        else (Except.error RpcError.handshakeRespParseFailed, st2)

/-- The environment of one `SetActivity` call: `os.Getpid()`, the 16
random bytes `crypto/rand` fills for `getNonce`, and the outcome of the
activity round trip. -/
structure SetActivityEnv where
  pid : Nat
  buf : Fin 16 → Fin 256
  reply : Reply

/-- Embedding of `SetActivity` from types.go.  Nil immediately when not `logged`;
otherwise marshal the frame (total for these field types), send it with
opcode 1, parse the reply, and fail exactly on an `"ERROR"` event tag.
The `logged` flag is never written. -/
def SetActivity (activity : PayloadActivity) (env : SetActivityEnv) (st : ClientState) :
    Except RpcError Unit × ClientState :=
  if !st.logged then (Except.ok (), st)
  else
    let payload := activityFrameJson env.pid activity (getNonce env.buf)
    let st1 := ipcSend 1 payload env.reply st
    match env.reply with
    | Reply.sendErr m => (Except.error (RpcError.sendFailed m), st1)
    | Reply.unparseable => (Except.error RpcError.parseFailed, st1)
    | Reply.parsed r =>
      if r.event = "ERROR" then (Except.error (RpcError.discordError r.data), st1)
      else (Except.ok (), st1)

/-- How a `Logout` call ends: a normal return, or a Go `panic`. -/
inductive LogoutOutcome where
  | ok
  | panicked (msg : String)

/-- The environment of one `Logout` call: the result of
`ipc.CloseSocket` (Modelled from the spec: on success the Connection is
closed; on failure its status is unchanged). -/
structure LogoutEnv where
  closeResult : Except String Unit

/-- Embedding of `Logout` from types.go: sets `logged = false` first, then calls
`ipc.CloseSocket()`; if closing reports an error it panics with it. -/
def Logout (env : LogoutEnv) (st : ClientState) : LogoutOutcome × ClientState :=
  let st1 := { st with logged := false }
  match env.closeResult with
  | Except.ok _ => (LogoutOutcome.ok, { st1 with socketOpen := false })
  | Except.error e => (LogoutOutcome.panicked e, st1)

/-! ### Concrete fixtures used by witnesses and counterexamples -/

/-- The all-empty assets value (the Go zero value of `PayloadAssets`). -/
def emptyAssets : PayloadAssets := ⟨"", "", "", ""⟩

/-- The Go zero value of `PayloadActivity`: no field populated. -/
def emptyActivity : PayloadActivity := ⟨0, "", "", emptyAssets, none, none, none, []⟩

/-- A state reached after a successful login with client id "abc123". -/
def readyState : ClientState :=
  { logged := true, socketOpen := true, sent := [(0, handshakeJson "abc123")], recvCount := 1 }

/-- Sixteen zero bytes for the randomness oracle. -/
def zeroBuf : Fin 16 → Fin 256 := fun _ => 0

/-- The spec success scenario reply: a SET_ACTIVITY echo with no `evt`
key, so `Event` is the Go zero value `""`. -/
def okSetActivityResponse : Response := ⟨"SET_ACTIVITY", Json.obj [], "", ""⟩

/-- The spec error scenario reply `{"evt":"ERROR","data":"invalid client id"}`. -/
def errResponse : Response := ⟨"", Json.str "invalid client id", "ERROR", ""⟩

/-- The spec handshake success reply
`{"cmd":"DISPATCH","data":{"v":1,"config":{},"user":{}}}`. -/
def dispatchResponse : Response :=
  ⟨"DISPATCH", Json.obj [("v", Json.num 1), ("config", Json.obj []), ("user", Json.obj [])], "", ""⟩

/-- A SetActivity environment whose round trip succeeds. -/
def okSendEnv : SetActivityEnv := ⟨1, zeroBuf, Reply.parsed okSetActivityResponse⟩

/-- A SetActivity environment whose reply is the error scenario. -/
def errSendEnv : SetActivityEnv := ⟨1, zeroBuf, Reply.parsed errResponse⟩

/-- A Login environment for the successful handshake scenario. -/
def okLoginEnv : LoginEnv := ⟨Except.ok (), Reply.parsed dispatchResponse⟩

/-- A Login environment whose handshake reply carries the error event. -/
def errLoginEnv : LoginEnv := ⟨Except.ok (), Reply.parsed errResponse⟩

/-- A Login environment where `ipc.OpenSocket` fails. -/
def failOpenEnv : LoginEnv := ⟨Except.error "no socket", Reply.unparseable⟩

/-- A Logout environment where `ipc.CloseSocket` reports an error. -/
def badCloseEnv : LogoutEnv := ⟨Except.error "close failed"⟩

/-- A Logout environment where `ipc.CloseSocket` succeeds. -/
def okCloseEnv : LogoutEnv := ⟨Except.ok ()⟩

/-! ### The claims -/

/-- C1: for every ActivityPayload, calling `SetActivity` while the
session is not logged (before any successful login, or after logout)
returns success and leaves the state — in particular the list of frames
written to the Connection — completely unchanged: a pure no-op. -/
theorem setActivity_not_ready_noop (a : PayloadActivity) (env : SetActivityEnv)
    (st : ClientState) (h : st.logged = false) :
    SetActivity a env st = (Except.ok (), st) := by
  simp [SetActivity, h]

/-- Witness for C1 at the initial state with a concrete payload. -/
theorem setActivity_not_ready_noop_witness :
    initialState.logged = false ∧
    SetActivity emptyActivity okSendEnv initialState = (Except.ok (), initialState) :=
  ⟨rfl, setActivity_not_ready_noop emptyActivity okSendEnv initialState rfl⟩

/-- C2: when the session is Ready and the reply decodes to `r`,
`SetActivity` fails exactly when the event tag of `r` equals `"ERROR"`,
in which case the returned error carries the data field of `r` as detail;
an absent (zero-value `""`) or different event tag yields success; and in
either case the `logged` flag still holds afterwards, so the caller may
retry. -/
theorem setActivity_ready_result (a : PayloadActivity) (env : SetActivityEnv)
    (st : ClientState) (r : Response) (hl : st.logged = true)
    (hr : env.reply = Reply.parsed r) :
    (SetActivity a env st).2.logged = true ∧
    (SetActivity a env st).1 =
      (if r.event = "ERROR" then Except.error (RpcError.discordError r.data)
       else Except.ok ()) := by
  by_cases he : r.event = "ERROR" <;> simp [SetActivity, hl, hr, ipcSend, he]

/-- Witness for C2 in a ready state with the spec error-scenario reply. -/
theorem setActivity_ready_result_witness :
    readyState.logged = true ∧ errSendEnv.reply = Reply.parsed errResponse ∧
    ((SetActivity emptyActivity errSendEnv readyState).2.logged = true ∧
     (SetActivity emptyActivity errSendEnv readyState).1 =
       (if errResponse.event = "ERROR" then Except.error (RpcError.discordError errResponse.data)
        else Except.ok ())) :=
  ⟨rfl, rfl, setActivity_ready_result emptyActivity errSendEnv readyState errResponse rfl rfl⟩

/-- C3 counterexample: a login whose handshake reply carries the error
event tag fails, but leaves the Connection OPEN — `socketOpen` is `true`
afterwards — refuting the claim that the Connection is closed on
handshake rejection (the source returns on that path without calling
`ipc.CloseSocket`). -/
theorem login_rejected_leaves_socket_open :
    (Login "abc123" errLoginEnv initialState).1
        = Except.error (RpcError.discordError (Json.str "invalid client id")) ∧
    (Login "abc123" errLoginEnv initialState).2.socketOpen = true := by
  constructor <;> rfl

/-- C3 (amended): when the handshake reply carries the error event tag,
`Login` fails with the discord error carrying the reply data, the session
state remains not-Ready (`logged` stays `false`), so a subsequent
`SetActivity` is still a no-op returning success — but the Connection is
NOT closed: the socket remains open. -/
theorem login_rejected_not_ready (cid : String) (env : LoginEnv) (st : ClientState)
    (r : Response) (hl : st.logged = false) (ho : env.openResult = Except.ok ())
    (hr : env.reply = Reply.parsed r) (he : r.event = "ERROR") :
    (Login cid env st).1 = Except.error (RpcError.discordError r.data) ∧
    (Login cid env st).2.logged = false ∧
    (Login cid env st).2.socketOpen = true ∧
    ∀ a env2, SetActivity a env2 (Login cid env st).2
        = (Except.ok (), (Login cid env st).2) := by
  simp [Login, hl, ho, hr, he, ipcSend, SetActivity]

/-- Witness for C3 (amended) at the spec error scenario. -/
theorem login_rejected_not_ready_witness :
    initialState.logged = false ∧ errLoginEnv.openResult = Except.ok () ∧
    errLoginEnv.reply = Reply.parsed errResponse ∧ errResponse.event = "ERROR" ∧
    ((Login "abc123" errLoginEnv initialState).1
        = Except.error (RpcError.discordError errResponse.data) ∧
     (Login "abc123" errLoginEnv initialState).2.logged = false ∧
     (Login "abc123" errLoginEnv initialState).2.socketOpen = true ∧
     ∀ a env2, SetActivity a env2 (Login "abc123" errLoginEnv initialState).2
        = (Except.ok (), (Login "abc123" errLoginEnv initialState).2)) :=
  ⟨rfl, rfl, rfl, rfl,
    login_rejected_not_ready "abc123" errLoginEnv initialState errResponse rfl rfl rfl rfl⟩

/-- C4 counterexample: when `ipc.CloseSocket` reports an error, `Logout`
panics (the source calls Go panic on the close error), refuting the claim
that logout never panics even when closing the connection reports an
error. -/
theorem logout_panics_on_close_error :
    (Logout badCloseEnv initialState).1 = LogoutOutcome.panicked "close failed" := rfl

/-- C4 (amended): `Logout` always forces `logged` to `false` first, from
any state.  When closing succeeds it returns normally with the Connection
closed, and a second call in a row behaves identically (idempotent).  But
when `ipc.CloseSocket` reports an error, `Logout` panics with it instead
of returning — the forced-closed flag having already been set. -/
theorem logout_forces_not_logged (env : LogoutEnv) (st : ClientState) :
    (Logout env st).2.logged = false ∧
    (match env.closeResult with
     | Except.ok _ =>
        Logout env st = (LogoutOutcome.ok, { st with logged := false, socketOpen := false }) ∧
        Logout env (Logout env st).2 = Logout env st
     | Except.error e => (Logout env st).1 = LogoutOutcome.panicked e) := by
  obtain ⟨cr⟩ := env
  cases cr <;> simp [Logout]

/-- C5: when the session is Ready, `SetActivity` writes exactly one
frame — opcode 1, payload the JSON document
`{cmd: "SET_ACTIVITY", args: {pid: <caller pid>, activity: <serialized
payload>}, nonce: <the CorrelationId generated from the fresh random
bytes>}` — and reads exactly one reply frame (none when the send itself
fails in transport). -/
theorem setActivity_ready_single_frame (a : PayloadActivity) (env : SetActivityEnv)
    (st : ClientState) (hl : st.logged = true) :
    (SetActivity a env st).2.sent
        = st.sent ++ [(1, activityFrameJson env.pid a (getNonce env.buf))] ∧
    (SetActivity a env st).2.recvCount
        = (match env.reply with
           | Reply.sendErr _ => st.recvCount
           | _ => st.recvCount + 1) := by
  obtain ⟨pid, buf, rep⟩ := env
  cases rep with
  | sendErr m => simp [SetActivity, hl, ipcSend]
  | unparseable => simp [SetActivity, hl, ipcSend]
  | parsed r =>
    by_cases he : r.event = "ERROR" <;> simp [SetActivity, hl, ipcSend, he]

/-- Witness for C5 in a ready state with the success-scenario reply. -/
theorem setActivity_ready_single_frame_witness :
    readyState.logged = true ∧
    ((SetActivity emptyActivity okSendEnv readyState).2.sent
        = readyState.sent
            ++ [(1, activityFrameJson okSendEnv.pid emptyActivity (getNonce okSendEnv.buf))] ∧
     (SetActivity emptyActivity okSendEnv readyState).2.recvCount
        = (match okSendEnv.reply with
           | Reply.sendErr _ => readyState.recvCount
           | _ => readyState.recvCount + 1)) :=
  ⟨rfl, setActivity_ready_single_frame emptyActivity okSendEnv readyState rfl⟩

/-- C6: evaluation of the embedded marshaller at the failing input, the
zero-value `PayloadActivity`.  The pointer-typed optional fields
(`party`, `timestamps`, `secrets`), the `buttons` slice, the empty
strings and the zero `type` are all omitted as the claim says — but the
`assets` key IS emitted, as an empty object: `Assets` is a non-pointer
struct field and Go `encoding/json` never treats a struct value as empty,
so its `assets,omitempty` tag is ineffective.  This contradicts the claim
that an empty `assets` is omitted from the emitted JSON. -/
theorem marshalActivity_empty_emits_assets :
    marshalActivity emptyActivity = Json.obj [("assets", Json.obj [])] ∧
    (marshalActivity emptyActivity).keys = ["assets"] :=
  ⟨rfl, rfl⟩

/-- Modelled from the spec: the `ipc` frame codec is not among the
sources.  Little-endian unsigned 32-bit encoding of a header integer
(spec §4.2: opcode and payload length). -/
def u32le (n : Nat) : List Nat :=
  [n % 256, n / 256 % 256, n / 65536 % 256, n / 16777216 % 256]

/-- Modelled from the spec: the value of four little-endian header
bytes. -/
def u32leValue (b0 b1 b2 b3 : Nat) : Nat :=
  b0 + 256 * b1 + 65536 * b2 + 16777216 * b3

/-- Modelled from the spec: `encode(opcode, payload)` produces a fixed
8-byte header — opcode, then payload length, both little-endian 32-bit
unsigned — followed by the raw payload bytes (spec §4.2). -/
def encodeFrame (opcode : Nat) (payload : List Nat) : List Nat :=
  u32le opcode ++ u32le payload.length ++ payload

/-- Modelled from the spec: `decode(stream)` reads exactly 8 header
bytes, then exactly `length` payload bytes; `none` is the TruncatedFrame
failure when the stream ends mid-frame (spec §4.2). -/
def decodeFrame (stream : List Nat) : Option (Nat × List Nat) :=
  match stream with
  | b0 :: b1 :: b2 :: b3 :: l0 :: l1 :: l2 :: l3 :: rest =>
      let len := u32leValue l0 l1 l2 l3
      if rest.length < len then none
      else some (u32leValue b0 b1 b2 b3, rest.take len)
  | _ => none

/-- A 32-bit value is recovered from its four little-endian bytes. -/
theorem u32le_roundtrip (n : Nat) (h : n < 4294967296) :
    u32leValue (n % 256) (n / 256 % 256) (n / 65536 % 256) (n / 16777216 % 256) = n := by
  simp only [u32leValue]
  omega

/-- C7: for every valid pair of a 32-bit opcode and a payload byte string
whose length fits in 32 bits, decoding the encoded frame returns exactly
the same opcode and payload. -/
theorem decode_encode_roundtrip (opcode : Nat) (payload : List Nat)
    (h1 : opcode < 4294967296) (h2 : payload.length < 4294967296) :
    decodeFrame (encodeFrame opcode payload) = some (opcode, payload) := by
  simp only [encodeFrame, u32le, List.cons_append, List.nil_append, decodeFrame,
    u32le_roundtrip opcode h1, u32le_roundtrip payload.length h2]
  simp [List.take_length]

/-- Witness for C7 at opcode 1 and a two-byte payload. -/
theorem decode_encode_roundtrip_witness :
    (1 : Nat) < 4294967296 ∧ ([104, 105] : List Nat).length < 4294967296 ∧
    decodeFrame (encodeFrame 1 [104, 105]) = some (1, [104, 105]) :=
  ⟨by decide, by decide, decode_encode_roundtrip 1 [104, 105] (by decide) (by decide)⟩

/-- C8: after a successful login from a not-logged state, exactly one
handshake frame — opcode 0 with payload `{v: "1", client_id: <the
identifier>}` — was appended to the Connection history (one more opcode-0
frame than before), and a second `Login` with any client identifier and
any environment returns success with the state (hence the wire history)
completely unchanged. -/
theorem login_idempotent_once_ready (cid : String) (env : LoginEnv) (st : ClientState)
    (hl : st.logged = false) (hok : (Login cid env st).1 = Except.ok ()) :
    (Login cid env st).2.logged = true ∧
    (Login cid env st).2.sent = st.sent ++ [(0, handshakeJson cid)] ∧
    (Login cid env st).2.sent.countP (fun f => f.1 == 0)
        = st.sent.countP (fun f => f.1 == 0) + 1 ∧
    ∀ cid2 env2, Login cid2 env2 (Login cid env st).2
        = (Except.ok (), (Login cid env st).2) := by
  obtain ⟨o, rep⟩ := env
  cases o with
  | error e => simp [Login, hl] at hok
  | ok u =>
    cases rep with
    | sendErr m => simp [Login, hl, ipcSend] at hok
    | unparseable => simp [Login, hl, ipcSend] at hok
    | parsed r =>
      by_cases he : r.event = "ERROR"
      · simp [Login, hl, ipcSend, he] at hok
      · by_cases hc : canUnmarshalHandshakeResp r.data = true
        · refine ⟨?_, ?_, ?_, ?_⟩ <;>
            simp [Login, hl, ipcSend, he, hc, List.countP_append]
        · simp [Login, hl, ipcSend, he, hc] at hok

/-- Witness for C8 at the spec handshake success scenario. -/
theorem login_idempotent_once_ready_witness :
    initialState.logged = false ∧
    (Login "abc123" okLoginEnv initialState).1 = Except.ok () ∧
    ((Login "abc123" okLoginEnv initialState).2.logged = true ∧
     (Login "abc123" okLoginEnv initialState).2.sent
        = initialState.sent ++ [(0, handshakeJson "abc123")] ∧
     (Login "abc123" okLoginEnv initialState).2.sent.countP (fun f => f.1 == 0)
        = initialState.sent.countP (fun f => f.1 == 0) + 1 ∧
     ∀ cid2 env2, Login cid2 env2 (Login "abc123" okLoginEnv initialState).2
        = (Except.ok (), (Login "abc123" okLoginEnv initialState).2)) :=
  ⟨rfl, rfl, login_idempotent_once_ready "abc123" okLoginEnv initialState rfl rfl⟩

/-- C9: starting not-logged, `Login` sets the `logged` flag exactly on
its success return: after any error return — socket open failure, send
failure, reply parse failure, error event tag, or handshake-metadata
parse failure — the flag is still `false`, so a subsequent `SetActivity`
is a no-op returning success with the state unchanged. -/
theorem login_logged_only_on_success (cid : String) (env : LoginEnv) (st : ClientState)
    (hl : st.logged = false) :
    match (Login cid env st).1 with
    | Except.ok _ => (Login cid env st).2.logged = true
    | Except.error _ =>
        (Login cid env st).2.logged = false ∧
        ∀ a env2, SetActivity a env2 (Login cid env st).2
            = (Except.ok (), (Login cid env st).2) := by
  obtain ⟨o, rep⟩ := env
  cases o with
  | error e => simp [Login, hl, SetActivity]
  | ok u =>
    cases rep with
    | sendErr m => simp [Login, hl, ipcSend, SetActivity]
    | unparseable => simp [Login, hl, ipcSend, SetActivity]
    | parsed r =>
      by_cases he : r.event = "ERROR"
      · simp [Login, hl, ipcSend, he, SetActivity]
      · by_cases hc : canUnmarshalHandshakeResp r.data = true <;>
          simp [Login, hl, ipcSend, he, hc, SetActivity]

/-- Witness for C9 at a failed socket open. -/
theorem login_logged_only_on_success_witness :
    initialState.logged = false ∧
    (match (Login "abc123" failOpenEnv initialState).1 with
     | Except.ok _ => (Login "abc123" failOpenEnv initialState).2.logged = true
     | Except.error _ =>
        (Login "abc123" failOpenEnv initialState).2.logged = false ∧
        ∀ a env2, SetActivity a env2 (Login "abc123" failOpenEnv initialState).2
            = (Except.ok (), (Login "abc123" failOpenEnv initialState).2)) :=
  ⟨rfl, login_logged_only_on_success "abc123" failOpenEnv initialState rfl⟩

/-- A lowercase hexadecimal digit character: `0`–`9` or `a`–`f`. -/
def isLowerHexChar (c : Char) : Bool :=
  (48 ≤ c.toNat && c.toNat ≤ 57) || (97 ≤ c.toNat && c.toNat ≤ 102)

/-- Go `%x` prints each byte as exactly two characters. -/
theorem byteToHex_length (b : Nat) : (byteToHex b).length = 2 := rfl

/-- The hex rendering of a byte list has two characters per byte. -/
theorem bytesToHex_length (l : List Nat) : (bytesToHex l).length = 2 * l.length := by
  induction l with
  | nil => rfl
  | cons b bs ih => simp [bytesToHex, byteToHex_length, ih]; omega

/-- Each digit printed by the `%x` verb is lowercase hexadecimal. -/
theorem hexDigit_hex (n : Nat) (h : n < 16) : isLowerHexChar (hexDigit n) = true := by
  interval_cases n <;> decide

/-- Both characters of a byte rendering are lowercase hexadecimal. -/
theorem byteToHex_hex (b : Nat) : (byteToHex b).data.all isLowerHexChar = true := by
  have h1 := hexDigit_hex (b / 16 % 16) (Nat.mod_lt _ (by norm_num))
  have h2 := hexDigit_hex (b % 16) (Nat.mod_lt _ (by norm_num))
  simp [byteToHex, h1, h2]

/-- All characters of a byte-list rendering are lowercase hexadecimal. -/
theorem bytesToHex_hex (l : List Nat) : (bytesToHex l).data.all isLowerHexChar = true := by
  induction l with
  | nil => rfl
  | cons b bs ih => simp only [bytesToHex, String.data_append, List.all_append,
      byteToHex_hex b, ih, Bool.and_self]

/-- Forcing the version nibble: for any byte, `(b & 0x0f) | 0x40` has
high nibble 4. -/
theorem masked_byte_high_nibble (x : Fin 256) :
    ((x.val &&& 0x0f) ||| 0x40) / 16 % 16 = 4 := by
  have h15 : x.val &&& 0x0f < 16 := Nat.lt_succ_of_le Nat.and_le_right
  have hall : ∀ k : Fin 16, (k.val ||| 0x40) = 64 + k.val := by decide
  have h := hall ⟨x.val &&& 0x0f, h15⟩
  rw [h]
  omega

/-- C10: `getNonce` is total over its random bytes — a randomness failure
is only printed, never returned, so it cannot make `SetActivity` fail —
and for every byte vector the result is a 36-character string of five
hyphen-separated lowercase-hexadecimal groups of lengths 8-4-4-4-12 whose
third group begins with the digit `4` (version nibble forced to 0100). -/
theorem getNonce_format (buf : Fin 16 → Fin 256) :
    ∃ g1 g2 g3 g4 g5 : String,
      getNonce buf = g1 ++ "-" ++ g2 ++ "-" ++ g3 ++ "-" ++ g4 ++ "-" ++ g5 ∧
      g1.length = 8 ∧ g2.length = 4 ∧ g3.length = 4 ∧ g4.length = 4 ∧ g5.length = 12 ∧
      (getNonce buf).length = 36 ∧
      (g1.data ++ g2.data ++ g3.data ++ g4.data ++ g5.data).all isLowerHexChar = true ∧
      g3.data.head? = some '4' := by
  refine ⟨bytesToHex [(buf 0).val, (buf 1).val, (buf 2).val, (buf 3).val],
    bytesToHex [(buf 4).val, (buf 5).val],
    bytesToHex [((buf 6).val &&& 0x0f) ||| 0x40, (buf 7).val],
    bytesToHex [(buf 8).val, (buf 9).val],
    bytesToHex [(buf 10).val, (buf 11).val, (buf 12).val, (buf 13).val, (buf 14).val, (buf 15).val],
    rfl, ?_, ?_, ?_, ?_, ?_, ?_, ?_, ?_⟩
  · simp [bytesToHex_length]
  · simp [bytesToHex_length]
  · simp [bytesToHex_length]
  · simp [bytesToHex_length]
  · simp [bytesToHex_length]
  · simp [getNonce, String.length_append, bytesToHex_length,
      show ("-" : String).length = 1 from rfl]
  · simp only [List.all_append, bytesToHex_hex, Bool.and_self]
  · show (bytesToHex (_ :: _)).data.head? = some '4'
    simp only [bytesToHex, byteToHex, String.data_append]
    show (hexDigit ((((buf 6).val &&& 0x0f) ||| 0x40) / 16 % 16) :: _).head? = some '4'
    rw [masked_byte_high_nibble (buf 6)]
    rfl
